import Mathlib

/-
Verification development for the bulk model-training and pretrained-inference
pipeline of the stock-prediction repository.  The definitions below are a
shallow embedding of the Python sources:

  * analytics/services/stock_data_fetcher.py  (calculate_technical_indicators)
  * analytics/services/model_trainer.py       (ModelTrainer)
  * analytics/services/lstm_prediction.py     (LSTMPredictor, run_lstm_prediction,
                                               run_lstm_prediction_pretrained)

Numeric values are modelled as rationals; pandas NaN cells are modelled with
Option.  Effects that leave the program (network fitting, filesystem writes,
market-data downloads) are modelled as explicit oracle/environment parameters.
-/

namespace StockLSTM

/-- A feature row of the feature frame: nine columns in the fixed order
`Close, Volume, MA5, MA10, MA20, Price_Change, Price_Range, Volume_Change, RSI`
(`ModelTrainer.__init__`, model_trainer.py lines 46-47).  Column `0` is the
close price. -/
abbrev Row : Type := Fin 9 → ℚ

/-- Ordered feature-name list `self.features` from `ModelTrainer.__init__`
(model_trainer.py lines 46-47); column `j` of a `Row` corresponds to entry `j`
of this list. -/
def featureNames : List String :=
  ["Close", "Volume", "MA5", "MA10", "MA20",
   "Price_Change", "Price_Range", "Volume_Change", "RSI"]

/-! RSI computation, embedded from `calculate_technical_indicators`
(stock_data_fetcher.py lines 63-72).  A pandas series over the close column is
modelled by a `List ℚ` for series without NaN and by index functions returning
`Option ℚ` where NaN can occur. -/

/-- pandas `df['Close'].diff()`: entry `i` is `close[i] - close[i-1]`, NaN
(`none`) at index `0` (stock_data_fetcher.py line 64). -/
def deltas (closes : List ℚ) : List (Option ℚ) :=
  (List.range closes.length).map fun i =>
    if i = 0 then none else some (closes.getD i 0 - closes.getD (i - 1) 0)

/-- pandas `delta.where(delta > 0, 0)`: keeps strictly positive deltas and
replaces everything else, including the leading NaN, by `0`
(stock_data_fetcher.py line 65). -/
def gains (closes : List ℚ) : List ℚ :=
  (deltas closes).map fun d =>
    match d with
    | some x => if 0 < x then x else 0
    | none => 0

/-- pandas `(-delta).where(delta < 0, 0)`: keeps `-delta` where the delta is
strictly negative and replaces everything else by `0`
(stock_data_fetcher.py line 66). -/
def losses (closes : List ℚ) : List ℚ :=
  (deltas closes).map fun d =>
    match d with
    | some x => if x < 0 then -x else 0
    | none => 0

/-- pandas `Series.rolling(window=w).mean()` at position `i`: NaN (`none`)
while fewer than `w` observations are available, otherwise the mean of the `w`
entries ending at `i`. -/
def rollingMean (w : ℕ) (xs : List ℚ) (i : ℕ) : Option ℚ :=
  if w ≤ i + 1 ∧ i < xs.length then
    some ((((List.range w).map fun k => xs.getD (i - k) 0).sum) / (w : ℚ))
  else none

/-- The `gain` series of stock_data_fetcher.py line 65: 14-day rolling mean of
the positive deltas. -/
def gainMean (closes : List ℚ) (i : ℕ) : Option ℚ := rollingMean 14 (gains closes) i

/-- The `loss` series of stock_data_fetcher.py line 66: 14-day rolling mean of
the negated negative deltas. -/
def lossMean (closes : List ℚ) (i : ℕ) : Option ℚ := rollingMean 14 (losses closes) i

/-- `rs = gain / loss.replace(0, np.nan)` (stock_data_fetcher.py line 69):
`none` models NaN, produced when either rolling mean is still NaN or the loss
is zero.  Over ℚ a finite numerator divided by a nonzero denominator is never
infinite, so the subsequent `rs.replace([np.inf, -np.inf], 100)` of line 70 is
the identity and has no counterpart here. -/
def rsOpt (closes : List ℚ) (i : ℕ) : Option ℚ :=
  match gainMean closes i, lossMean closes i with
  | some g, some l => if l = 0 then none else some (g / l)
  | _, _ => none

/-- `rs.fillna(50)` (stock_data_fetcher.py line 70): every NaN in the
gain/loss ratio, including the zero-loss case, becomes the ratio value `50`. -/
def rsFilled (closes : List ℚ) (i : ℕ) : ℚ := (rsOpt closes i).getD 50

/-- `df['RSI'] = 100 - (100 / (1 + rs))` (stock_data_fetcher.py line 71). -/
def rsiRaw (closes : List ℚ) (i : ℕ) : ℚ := 100 - 100 / (1 + rsFilled closes i)

/-- `df['RSI'].clip(0, 100)` (stock_data_fetcher.py line 72). -/
def rsiClipped (closes : List ℚ) (i : ℕ) : ℚ := min (max (rsiRaw closes i) 0) 100

/-- `df['Close'].replace(0, np.nan)` followed by `df.dropna(subset=['Close'])`
(stock_data_fetcher.py lines 38-39): rows with a zero close price are removed
before any indicator is computed. -/
def cleanCloses (closes : List ℚ) : List ℚ := closes.filter fun c => c ≠ 0

/-- The RSI column value at row `i` as produced by
`calculate_technical_indicators` on a close-price series. -/
def indicatorRSI (closes : List ℚ) (i : ℕ) : ℚ := rsiClipped (cleanCloses closes) i

/-! Min-max scalers, embedded from sklearn `MinMaxScaler(feature_range=(0, 1))`
as used in `ModelTrainer.prepare_stock_data` (model_trainer.py lines 96-103)
and `LSTMPredictor.prepare_data` (lstm_prediction.py lines 96-102).  sklearn
fits per-column data minima and maxima; with feature range `(0, 1)` the
transform is `(x - min) / (max - min)` and a zero range is replaced by `1`
(sklearn `_handle_zeros_in_scale`). -/

/-- sklearn guard `_handle_zeros_in_scale`: a zero-width data range scales by
`1` instead of dividing by zero. -/
def safeRange (a b : ℚ) : ℚ := if b - a = 0 then 1 else b - a

/-- A fitted feature scaler: per-column data minimum and maximum over the nine
feature columns. -/
structure FittedScaler where
  dmin : Fin 9 → ℚ
  dmax : Fin 9 → ℚ

/-- `MinMaxScaler().fit` over all nine feature columns jointly
(column-wise min/max). -/
def fitFeatureScaler (frame : List Row) : FittedScaler :=
  { dmin := fun j => ((frame.map fun r => r j).min?).getD 0,
    dmax := fun j => ((frame.map fun r => r j).max?).getD 0 }

/-- `MinMaxScaler.transform` of one feature row. -/
def FittedScaler.transform (sc : FittedScaler) (r : Row) : Row :=
  fun j => (r j - sc.dmin j) / safeRange (sc.dmin j) (sc.dmax j)

/-- A fitted target scaler: data minimum and maximum of the close-price
column alone. -/
structure FittedScaler1 where
  dmin : ℚ
  dmax : ℚ

/-- `MinMaxScaler().fit` over the close-price column alone
(model_trainer.py lines 101-103). -/
def fitTargetScaler (xs : List ℚ) : FittedScaler1 :=
  { dmin := (xs.min?).getD 0, dmax := (xs.max?).getD 0 }

/-- `MinMaxScaler.transform` of one target value. -/
def FittedScaler1.transform (sc : FittedScaler1) (x : ℚ) : ℚ :=
  (x - sc.dmin) / safeRange sc.dmin sc.dmax

/-- `MinMaxScaler.inverse_transform` of one scaled target value
(lstm_prediction.py line 241, line 315). -/
def FittedScaler1.inverse (sc : FittedScaler1) (x : ℚ) : ℚ :=
  x * safeRange sc.dmin sc.dmax + sc.dmin

/-! Sequence building. -/

/-- The sequence-building loop shared verbatim by
`ModelTrainer.prepare_stock_data` (model_trainer.py lines 105-111) and
`LSTMPredictor.prepare_data` (lstm_prediction.py lines 104-110):

  for i in range(lookback, len(scaled_features)):
      X.append(scaled_features[i-lookback:i])
      y.append(scaled_prices[i, 0])

The Python slice `scaled_features[i-lookback:i]` is `drop (i - lookback)`
followed by `take lookback`. -/
def createSequences (lookback : ℕ) (scaledFeatures : List Row) (scaledTarget : List ℚ) :
    List (List Row) × List ℚ :=
  ((List.range' lookback (scaledFeatures.length - lookback)).map
      fun i => (scaledFeatures.drop (i - lookback)).take lookback,
   (List.range' lookback (scaledFeatures.length - lookback)).map
      fun i => scaledTarget.getD i 0)

/-- The scaled feature rows `scaled_features = feature_scaler.fit_transform(feature_data)`
(model_trainer.py lines 97-98). -/
def scaledFeatureRows (frame : List Row) : List Row :=
  frame.map (fitFeatureScaler frame).transform

/-- The scaled close prices `scaled_prices = target_scaler.fit_transform(prices)`
(model_trainer.py lines 101-103); the prices are column `0` of the frame. -/
def scaledTargets (frame : List Row) : List ℚ :=
  (frame.map fun r => r 0).map (fitTargetScaler (frame.map fun r => r 0)).transform

/-- Shallow embedding of `ModelTrainer.prepare_stock_data`
(model_trainer.py lines 54-117).  The input is the indicator-complete feature
frame (the code computes indicators and drops NaN rows first when they are
absent, lines 70-72).  Over ℚ every value is finite, so the non-finite
cleaning block of lines 81-94 is the identity and its final failure branch is
unreachable; the only remaining failure is the length check of lines 74-76. -/
def prepareStockData (lookback : ℕ) (frame : List Row) :
    Option (List (List Row) × List ℚ × FittedScaler × FittedScaler1) :=
  if frame.length < lookback + 50 then none
  else
    let Xy := createSequences lookback (scaledFeatureRows frame) (scaledTargets frame)
    some (Xy.1, Xy.2, fitFeatureScaler frame, fitTargetScaler (frame.map fun r => r 0))

/-- Result record of `LSTMPredictor.prepare_data` together with the scalers it
fits on the instance (`self.scaler`, `self.target_scaler`). -/
structure Prepared where
  xTrain : List (List Row)
  yTrain : List ℚ
  xTest : List (List Row)
  yTest : List ℚ
  featScaler : FittedScaler
  targScaler : FittedScaler1

/-- Shallow embedding of `LSTMPredictor.prepare_data`
(lstm_prediction.py lines 46-121).  The input is the indicator-complete
feature frame left after the internal feature computation and `dropna`
(lines 58-86); the `raise ValueError` of lines 88-90 is modelled as `none`.
The split index `int(len(X) * 0.8)` equals `len(X) * 4 / 5` in natural-number
arithmetic (for every realistic length the IEEE-754 product `len * 0.8`
truncates to the same value). -/
def prepareData (lookback : ℕ) (frame : List Row) : Option Prepared :=
  if frame.length < lookback + 50 then none
  else
    let Xy := createSequences lookback (scaledFeatureRows frame) (scaledTargets frame)
    let splitIdx := Xy.1.length * 4 / 5
    some { xTrain := Xy.1.take splitIdx, yTrain := Xy.2.take splitIdx,
           xTest := Xy.1.drop splitIdx, yTest := Xy.2.drop splitIdx,
           featScaler := fitFeatureScaler frame,
           targScaler := fitTargetScaler (frame.map fun r => r 0) }

/-! Trainer and bulk pipeline, embedded from `ModelTrainer`
(model_trainer.py lines 133-267). -/

/-- Metadata record persisted by `train_single_stock`
(model_trainer.py lines 193-204).  The wall-clock field `trained_date`
(datetime.now) is an external effect and is not modelled. -/
structure Metadata where
  symbol : String
  trainingSamples : ℕ
  testSamples : ℕ
  testLoss : ℚ
  testMAE : ℚ
  finalTrainLoss : ℚ
  epochs : ℕ
  lookback : ℕ
  features : List String
  deriving DecidableEq

/-- Oracle for the Keras side effects of training: `fit` stands for
`model.fit` followed by reading off the fitted network as a function from an
input window to the scaled prediction, `evaluate` for
`model.evaluate(X_test, y_test)` returning `(test_loss, test_mae)`, and
`finalTrainLoss` for `history.history['loss'][-1]`. -/
structure KerasOracle where
  fit : List (List Row) → List ℚ → (List Row → ℚ)
  evaluate : (List Row → ℚ) → List (List Row) → List ℚ → ℚ × ℚ
  finalTrainLoss : ℚ

/-- `self.lookback = 30` from `ModelTrainer.__init__` (model_trainer.py line 45). -/
def trainerLookback : ℕ := 30

/-- Shallow embedding of `ModelTrainer.train_single_stock`
(model_trainer.py lines 133-213): prepare the data, split 80/20
chronologically (`split_idx = int(len(X) * 0.8)`, modelled as
`len(X) * 4 / 5`), fit and evaluate through the oracle, and return the
metadata record that the code persists.  The filesystem writes of
lines 176-207 are modelled separately by the model store below; every failure
returns `none` (the code catches all exceptions and returns `None`). -/
def trainSingleStock (oracle : KerasOracle) (symbol : String) (epochs : ℕ)
    (frame : List Row) : Option Metadata :=
  match prepareStockData trainerLookback frame with
  | none => none
  | some (x, y, _, _) =>
    let splitIdx := x.length * 4 / 5
    let xTrain := x.take splitIdx
    let xTest := x.drop splitIdx
    let yTrain := y.take splitIdx
    let yTest := y.drop splitIdx
    let model := oracle.fit xTrain yTrain
    let ev := oracle.evaluate model xTest yTest
    some { symbol := symbol, trainingSamples := xTrain.length, testSamples := xTest.length,
           testLoss := ev.1, testMAE := ev.2, finalTrainLoss := oracle.finalTrainLoss,
           epochs := epochs, lookback := trainerLookback, features := featureNames }

/-- Summary record of `train_all_stocks` (model_trainer.py lines 243-251); the
`training_date` timestamp is an external effect and is not modelled. -/
structure TrainingSummary where
  market : String
  totalStocks : ℕ
  successfulCount : ℕ
  failedCount : ℕ
  failedSymbols : List String
  models : List Metadata

/-- The per-symbol loop of `train_all_stocks` (model_trainer.py lines 235-241):
each symbol is trained independently and appended, in iteration order, to the
successful metadata list or to the failed symbol list. -/
def trainLoop (oracle : KerasOracle) (epochs : ℕ) :
    List (String × List Row) → List Metadata × List String
  | [] => ([], [])
  | p :: rest =>
    match trainSingleStock oracle p.1 epochs p.2 with
    | some m => ((trainLoop oracle epochs rest).1.cons m, (trainLoop oracle epochs rest).2)
    | none => ((trainLoop oracle epochs rest).1, (trainLoop oracle epochs rest).2.cons p.1)

/-- Shallow embedding of `ModelTrainer.train_all_stocks`
(model_trainer.py lines 215-267).  The stock dictionary is modelled as an
association list in iteration order; the function is total, matching the
code in which a single symbol's failure is converted to a `failed` entry and
never aborts the run. -/
def trainAllStocks (oracle : KerasOracle) (epochs : ℕ)
    (stockData : List (String × List Row)) (marketName : String) : TrainingSummary :=
  let r := trainLoop oracle epochs stockData
  { market := marketName, totalStocks := stockData.length,
    successfulCount := r.1.length, failedCount := r.2.length,
    failedSymbols := r.2, models := r.1 }

/-! Model store, embedded from the save site of `train_single_stock`
(model_trainer.py lines 176-207) and from `load_pretrained_model`
(model_trainer.py lines 269-309). -/

/-- `self.model_dir` default from `ModelTrainer.__init__` (model_trainer.py line 37). -/
def modelDir : String := "models/pretrained"

/-- Key derivation at the save site,
`safe_symbol = symbol.replace('.', '_').replace('&', 'AND')`
(model_trainer.py line 177).  Both Python replacements have a one-character
pattern, so they act character by character: first every `.` becomes `_`,
then every `&` expands to `AND`. -/
def safeSymbolSave (symbol : String) : String :=
  String.mk ((symbol.data.map fun c => if c = '.' then '_' else c).flatMap
    fun c => if c = '&' then ['A', 'N', 'D'] else [c])

/-- Key derivation at the load site,
`safe_symbol = symbol.replace('.', '_').replace('&', 'AND')`
(model_trainer.py line 280). -/
def safeSymbolLoad (symbol : String) : String :=
  String.mk ((symbol.data.map fun c => if c = '.' then '_' else c).flatMap
    fun c => if c = '&' then ['A', 'N', 'D'] else [c])

/-- `model_path = f"{self.model_dir}/{safe_symbol}.keras"` (lines 178, 281). -/
def modelPath (safe : String) : String := modelDir ++ "/" ++ safe ++ ".keras"

/-- `scaler_path = f"{self.model_dir}/scalers/{safe_symbol}.pkl"` (lines 179, 282). -/
def scalerPath (safe : String) : String := modelDir ++ "/scalers/" ++ safe ++ ".pkl"

/-- `metadata_path = f"{self.model_dir}/metadata/{safe_symbol}.json"` (lines 180, 283). -/
def metadataPath (safe : String) : String := modelDir ++ "/metadata/" ++ safe ++ ".json"

/-- Filesystem contents seen by the model store: each map sends a path to the
stored content when the file exists (`os.path.exists`), `none` otherwise.  A
saved network is read back as its prediction function. -/
structure ArtifactFiles where
  modelFile : String → Option (List Row → ℚ)
  scalerFile : String → Option (FittedScaler × FittedScaler1)
  metadataFile : String → Option Metadata

/-- Shallow embedding of `ModelTrainer.load_pretrained_model`
(model_trainer.py lines 269-309): derive the sanitized key, return `none`
unless all three artifact files exist, otherwise return the
(model, feature scaler, target scaler, metadata) bundle. -/
def loadPretrainedModel (files : ArtifactFiles) (symbol : String) :
    Option ((List Row → ℚ) × FittedScaler × FittedScaler1 × Metadata) :=
  let safe := safeSymbolLoad symbol
  match files.modelFile (modelPath safe), files.scalerFile (scalerPath safe),
        files.metadataFile (metadataPath safe) with
  | some m, some sc, some md => some (m, sc.1, sc.2, md)
  | _, _, _ => none

/-! Inference path, embedded from `run_lstm_prediction_pretrained` and
`run_lstm_prediction` (lstm_prediction.py lines 246-459) and
`LSTMPredictor.predict_future` (lines 181-243). -/

/-- An indicator-complete frame as it reaches the prediction code after
`calculate_technical_indicators` and `dropna`: the feature rows together with
their trading dates (dates modelled as integer day numbers, one per row). -/
structure Frame where
  rows : List Row
  dates : List ℤ

/-- A loaded pretrained artifact: the model as its prediction function on one
scaled window, both fitted scalers, and the metadata record. -/
structure Artifact where
  model : List Row → ℚ
  featureScaler : FittedScaler
  targetScaler : FittedScaler1
  metadata : Metadata

/-- Environment of the inference path: the model store
(`trainer.load_pretrained_model`), the two market-data fetches
(`download_stock_with_fallback`, returning the indicator-complete frame;
`none` models both a `None` return and an empty dataframe), and the Keras
oracle for the fallback training. -/
structure Env where
  store : String → Option Artifact
  fetchRecent : String → Option Frame
  fetchTrain : String → Option Frame
  oracle : KerasOracle

/-- Result dictionary of the prediction entry points, restricted to the
fields the specification talks about.  `usingPretrained = none` models a
dictionary with no `using_pretrained` key at all. -/
structure PredResult where
  success : Bool
  error : Option String
  symbol : String
  predictions : List ℚ
  futureDates : List ℤ
  currentPrice : ℚ
  predictedPrice : ℚ
  usingPretrained : Option Bool

/-- A structured failure dictionary `{'success': False, 'error': msg}`. -/
def failureResult (msg : String) (symbol : String) : PredResult :=
  { success := false, error := some msg, symbol := symbol, predictions := [],
    futureDates := [], currentPrice := 0, predictedPrice := 0, usingPretrained := none }

/-- One iteration of the recursive forecast loop, identical at its two sites
(lstm_prediction.py lines 231-237 and 308-311):

  last_features = current_sequence[-1].copy()
  last_features[0] = next_pred[0, 0]
  current_sequence = np.vstack([current_sequence[1:], last_features.reshape(1, -1)])

The oldest row is dropped and a synthetic row is appended that copies the
previous last row except at column `0`, which receives the prediction. -/
def forecastStep (window : List Row) (pred : ℚ) : List Row :=
  window.tail ++ [Function.update (window.getLastD fun _ => 0) 0 pred]

/-- The recursive forecast loop (`for _ in range(days)` /
`for _ in range(future_days)`): collect one scaled prediction per iteration,
feeding each prediction back through `forecastStep`. -/
def forecastLoop (model : List Row → ℚ) : ℕ → List Row → List ℚ
  | 0, _ => []
  | d + 1, w => model w :: forecastLoop model d (forecastStep w (model w))

/-- `last_sequence = df[features].values[-30:]` followed by
`last_sequence_scaled = feature_scaler.transform(last_sequence)`
(lstm_prediction.py lines 296-297; lines 215-216 with `lookback = 30`). -/
def lastSequenceScaled (sc : FittedScaler) (rows : List Row) : List Row :=
  (rows.drop (rows.length - 30)).map sc.transform

/-- `pd.date_range(start=last_date + 1 day, periods=days)`
(lstm_prediction.py line 319), and equivalently the comprehension
`last_date + timedelta(days=i+1)` of lines 423-424. -/
def futureDatesFrom (lastDate : ℤ) (days : ℕ) : List ℤ :=
  (List.range days).map fun (i : ℕ) => lastDate + ((i : ℤ) + 1)

/-- Shallow embedding of `run_lstm_prediction` with `num_simulations = 1` and
`lookback = 30`, as invoked by the fallback branch of
`run_lstm_prediction_pretrained` (lstm_prediction.py line 339).  The second
component counts how many times a model is fitted (`predictor.train`).  The
returned dictionary of the code (lines 432-453) carries no
`using_pretrained` key, hence `usingPretrained := none`.  The single
simulation prepares the data, trains once, and predicts through
`predict_future` (lines 181-243): last 30 indicator-complete rows, scaled
with the scaler fitted in `prepare_data`, recursive loop, inverse transform
through the fitted target scaler. -/
def runPrediction (env : Env) (symbol : String) (futureDays : ℕ) : PredResult × ℕ :=
  match env.fetchTrain symbol with
  | none => (failureResult ("No data found for symbol " ++ symbol) symbol, 0)
  | some f =>
    match prepareData 30 f.rows with
    | none =>
      (failureResult "All simulations failed. Please try different parameters." symbol, 0)
    | some pd =>
      let model := env.oracle.fit pd.xTrain pd.yTrain
      let preds := (forecastLoop model futureDays
          (lastSequenceScaled pd.featScaler f.rows)).map pd.targScaler.inverse
      ({ success := true, error := none, symbol := symbol, predictions := preds,
         futureDates := futureDatesFrom (f.dates.getLastD 0) futureDays,
         currentPrice := (f.rows.getLastD fun _ => 0) 0,
         predictedPrice := preds.getLastD 0,
         usingPretrained := none }, 1)

/-- Shallow embedding of `run_lstm_prediction_pretrained`
(lstm_prediction.py lines 246-344).  On a store hit the recent frame is
fetched, checked for at least 30 indicator-complete rows, the last 30 rows
are scaled with the loaded feature scaler, the recursive forecast loop is
run, the collected scaled predictions are inverse-transformed through the
loaded target scaler, and the result carries `using_pretrained = True`.  On a
store miss the code falls back to `run_lstm_prediction` (line 339).  The
second component counts model fits. -/
def runPretrained (env : Env) (symbol : String) (futureDays : ℕ) : PredResult × ℕ :=
  match env.store symbol with
  | some art =>
    match env.fetchRecent symbol with
    | none => (failureResult ("No data found for " ++ symbol) symbol, 0)
    | some f =>
      if f.rows.length < 30 then
        (failureResult "Insufficient recent data: need 30 rows. Try longer period." symbol, 0)
      else
        let scaledPreds := forecastLoop art.model futureDays
            (lastSequenceScaled art.featureScaler f.rows)
        let preds := scaledPreds.map art.targetScaler.inverse
        ({ success := true, error := none, symbol := symbol, predictions := preds,
           futureDates := futureDatesFrom (f.dates.getLastD 0) futureDays,
           currentPrice := (f.rows.getLastD fun _ => 0) 0,
           predictedPrice := preds.getLastD 0,
           usingPretrained := some true }, 0)
  | none => runPrediction env symbol futureDays

/-! Theorems. -/

/-- Length of the sample list produced by the sequence-building loop. -/
theorem createSequences_fst_length (L : ℕ) (sf : List Row) (st : List ℚ) :
    (createSequences L sf st).1.length = sf.length - L := by
  simp [createSequences]

/-- Length of the label list produced by the sequence-building loop. -/
theorem createSequences_snd_length (L : ℕ) (sf : List Row) (st : List ℚ) :
    (createSequences L sf st).2.length = sf.length - L := by
  simp [createSequences]

/-- Sample `j` of the sequence-building loop is the slice of the scaled
feature rows starting at `j`, entry by entry. -/
theorem createSequences_window (L : ℕ) (sf : List Row) (st : List ℚ) (j k : ℕ)
    (hj : j < sf.length - L) (hk : k < L) :
    ((createSequences L sf st).1.getD j []).getD k (fun _ => 0) =
      sf.getD (j + k) (fun _ => 0) := by
  have hjX : j < (createSequences L sf st).1.length := by
    rw [createSequences_fst_length]; exact hj
  have hjr : j < (List.range' L (sf.length - L)).length := by simpa using hj
  have hjk : j + k < sf.length := by omega
  rw [List.getD_eq_getElem _ _ hjX]
  have hjm : j < ((List.range' L (sf.length - L)).map
      fun i => (sf.drop (i - L)).take L).length := by simpa using hj
  have hidx : (List.range' L (sf.length - L))[j] = L + j := List.getElem_range'_1 j hjr
  have hX : (createSequences L sf st).1[j] = (sf.drop j).take L := by
    show ((List.range' L (sf.length - L)).map
      (fun i => (sf.drop (i - L)).take L))[j] = _
    rw [List.getElem_map, hidx]
    have h2 : L + j - L = j := by omega
    rw [h2]
  rw [hX]
  have hlen : k < ((sf.drop j).take L).length := by
    simp only [List.length_take, List.length_drop]
    omega
  rw [List.getD_eq_getElem _ _ hlen, List.getD_eq_getElem _ _ hjk]
  rw [List.getElem_take, List.getElem_drop]

/-- Label `j` of the sequence-building loop is the scaled target at index
`j + L`. -/
theorem createSequences_label (L : ℕ) (sf : List Row) (st : List ℚ) (j : ℕ)
    (hj : j < sf.length - L) :
    (createSequences L sf st).2.getD j 0 = st.getD (j + L) 0 := by
  have hjY : j < (createSequences L sf st).2.length := by
    simpa [createSequences] using hj
  have hjm : j < ((List.range' L (sf.length - L)).map
      fun i => st.getD i 0).length := by simpa using hj
  rw [List.getD_eq_getElem _ _ hjY]
  show ((List.range' L (sf.length - L)).map (fun i => st.getD i 0))[j] = _
  rw [List.getElem_map, List.getElem_range'_1]
  have h2 : L + j = j + L := by omega
  rw [h2]

/-- C1 (causal windowing): for every indicator-complete feature frame of
`N ≥ lookback + 50` rows, `prepare_stock_data` produces exactly `N - L`
samples; sample `j` reads the scaled feature rows `[j, j + L)` entry by
entry, its label is the scaled close price at row `j + L`, and that label
index lies strictly after every index of the window. -/
theorem causal_windowing (L : ℕ) (frame : List Row) (h : L + 50 ≤ frame.length) :
    ∃ x y fs ts, prepareStockData L frame = some (x, y, fs, ts) ∧
      x.length = frame.length - L ∧ y.length = frame.length - L ∧
      (∀ j k, j < frame.length - L → k < L →
        (x.getD j []).getD k (fun _ => 0) =
          (scaledFeatureRows frame).getD (j + k) (fun _ => 0)) ∧
      (∀ j, j < frame.length - L → y.getD j 0 = (scaledTargets frame).getD (j + L) 0) ∧
      (∀ j k, k < L → j + k < j + L) := by
  have hsf : (scaledFeatureRows frame).length = frame.length := by
    simp [scaledFeatureRows]
  refine ⟨(createSequences L (scaledFeatureRows frame) (scaledTargets frame)).1,
    (createSequences L (scaledFeatureRows frame) (scaledTargets frame)).2,
    fitFeatureScaler frame, fitTargetScaler (frame.map fun r => r 0), ?_, ?_, ?_, ?_, ?_, ?_⟩
  · rw [prepareStockData, if_neg (by omega)]
  · rw [createSequences_fst_length, hsf]
  · rw [createSequences_snd_length, hsf]
  · intro j k hj hk
    exact createSequences_window L _ _ j k (by omega) hk
  · intro j hj
    exact createSequences_label L _ _ j (by omega)
  · intro j k hk
    omega

/-- Witness for `causal_windowing` at `L = 1` and a concrete frame of 51
constant rows. -/
theorem causal_windowing_witness :
    1 + 50 ≤ (List.replicate 51 (fun _ => (1 : ℚ)) : List Row).length ∧
    (∃ x y fs ts,
      prepareStockData 1 (List.replicate 51 (fun _ => (1 : ℚ)) : List Row) = some (x, y, fs, ts) ∧
      x.length = (List.replicate 51 (fun _ => (1 : ℚ)) : List Row).length - 1 ∧
      y.length = (List.replicate 51 (fun _ => (1 : ℚ)) : List Row).length - 1 ∧
      (∀ j k, j < (List.replicate 51 (fun _ => (1 : ℚ)) : List Row).length - 1 → k < 1 →
        (x.getD j []).getD k (fun _ => 0) =
          (scaledFeatureRows (List.replicate 51 (fun _ => (1 : ℚ)))).getD (j + k) (fun _ => 0)) ∧
      (∀ j, j < (List.replicate 51 (fun _ => (1 : ℚ)) : List Row).length - 1 →
        y.getD j 0 = (scaledTargets (List.replicate 51 (fun _ => (1 : ℚ)))).getD (j + 1) 0) ∧
      (∀ j k, k < 1 → j + k < j + 1)) :=
  ⟨by decide, causal_windowing 1 (List.replicate 51 (fun _ => (1 : ℚ))) (by decide)⟩

/-- C5 (insufficient-data threshold): both `prepare_stock_data` and
`prepare_data` fail exactly when the indicator-complete frame has fewer than
`lookback + 50` rows; with at least `lookback + 50` rows each proceeds and
returns the sequences together with both fitted scalers. -/
theorem insufficient_data_threshold (L : ℕ) (frame : List Row) :
    (prepareStockData L frame = none ↔ frame.length < L + 50) ∧
    (prepareData L frame = none ↔ frame.length < L + 50) := by
  constructor
  · rw [prepareStockData]
    split <;> simp_all
  · rw [prepareData]
    split <;> simp_all

/-- Every entry of the `gain` base series is nonnegative. -/
theorem gains_nonneg (closes : List ℚ) : ∀ x ∈ gains closes, 0 ≤ x := by
  intro x hx
  simp only [gains, List.mem_map] at hx
  obtain ⟨d, -, rfl⟩ := hx
  cases d with
  | none => exact le_refl 0
  | some v =>
    dsimp only
    split_ifs with h
    · exact le_of_lt h
    · exact le_refl 0

/-- Every entry of the `loss` base series is nonnegative. -/
theorem losses_nonneg (closes : List ℚ) : ∀ x ∈ losses closes, 0 ≤ x := by
  intro x hx
  simp only [losses, List.mem_map] at hx
  obtain ⟨d, -, rfl⟩ := hx
  cases d with
  | none => exact le_refl 0
  | some v =>
    dsimp only
    split_ifs with h
    · linarith
    · exact le_refl 0

/-- Reading a list of nonnegative rationals with default `0` is nonnegative. -/
theorem getD_nonneg {xs : List ℚ} (h : ∀ x ∈ xs, 0 ≤ x) (n : ℕ) : 0 ≤ xs.getD n 0 := by
  by_cases hn : n < xs.length
  · rw [List.getD_eq_getElem _ _ hn]
    exact h _ (List.getElem_mem hn)
  · rw [List.getD_eq_default _ _ (le_of_not_lt hn)]

/-- A rolling mean of a nonnegative series is nonnegative whenever defined. -/
theorem rollingMean_nonneg {w : ℕ} {xs : List ℚ} {i : ℕ} {v : ℚ}
    (hx : ∀ x ∈ xs, 0 ≤ x) (hv : rollingMean w xs i = some v) : 0 ≤ v := by
  rw [rollingMean] at hv
  split at hv
  · have hsum : 0 ≤ ((List.range w).map fun k => xs.getD (i - k) 0).sum := by
      apply List.sum_nonneg
      intro x hxm
      simp only [List.mem_map] at hxm
      obtain ⟨k, -, rfl⟩ := hxm
      exact getD_nonneg hx _
    have hv2 := Option.some.inj hv
    rw [← hv2]
    exact div_nonneg hsum (by positivity)
  · exact absurd hv (by simp)

/-- The filled gain/loss ratio `rs` is either the fill value `50` or an
actual quotient of defined rolling means with nonzero loss. -/
theorem rsFilled_cases (closes : List ℚ) (i : ℕ) :
    rsFilled closes i = 50 ∨
    ∃ g l, gainMean closes i = some g ∧ lossMean closes i = some l ∧ l ≠ 0 ∧
      rsFilled closes i = g / l := by
  rw [rsFilled, rsOpt]
  cases hg : gainMean closes i with
  | none => left; rfl
  | some g =>
    cases hl : lossMean closes i with
    | none => left; rfl
    | some l =>
      by_cases h0 : l = 0
      · left
        show ((if l = 0 then none else some (g / l)) : Option ℚ).getD 50 = 50
        rw [if_pos h0]
        rfl
      · right
        refine ⟨g, l, rfl, rfl, h0, ?_⟩
        show ((if l = 0 then none else some (g / l)) : Option ℚ).getD 50 = g / l
        rw [if_neg h0]
        rfl

/-- The filled gain/loss ratio `rs` is always nonnegative. -/
theorem rsFilled_nonneg (closes : List ℚ) (i : ℕ) : 0 ≤ rsFilled closes i := by
  rcases rsFilled_cases closes i with h | ⟨g, l, hg, hl, -, h⟩
  · rw [h]; norm_num
  · rw [h]
    exact div_nonneg (rollingMean_nonneg (gains_nonneg closes) hg)
      (rollingMean_nonneg (losses_nonneg closes) hl)

/-- The raw RSI value `100 - 100 / (1 + rs)` already lies in `[0, 100]`
before clipping. -/
theorem rsiRaw_bounds (closes : List ℚ) (i : ℕ) :
    0 ≤ rsiRaw closes i ∧ rsiRaw closes i ≤ 100 := by
  have h0 : 0 ≤ rsFilled closes i := rsFilled_nonneg closes i
  have h1 : (0 : ℚ) < 1 + rsFilled closes i := by linarith
  rw [rsiRaw]
  constructor
  · have hle : 100 / (1 + rsFilled closes i) ≤ 100 := by
      rw [div_le_iff₀ h1]
      nlinarith
    linarith
  · have hpos : 0 < 100 / (1 + rsFilled closes i) := by positivity
    linarith

/-- With zero rolling loss the gain rolling mean is defined as well, because
the gain and loss base series have equal length. -/
theorem gainMean_isSome_of_lossMean {closes : List ℚ} {i : ℕ} {l : ℚ}
    (hl : lossMean closes i = some l) : ∃ g, gainMean closes i = some g := by
  have hlen : (gains closes).length = (losses closes).length := by
    simp [gains, losses]
  rw [lossMean, rollingMean] at hl
  rw [gainMean, rollingMean]
  split at hl
  · rename_i hcond
    rw [if_pos ⟨hcond.1, by rw [hlen]; exact hcond.2⟩]
    exact ⟨_, rfl⟩
  · exact absurd hl (by simp)

/-- C2 (amended): every RSI value produced by the feature engineer lies in
`[0, 100]` and is never NaN or infinite (the clip of line 72 is even a
no-op), but a window with zero rolling loss has its gain/loss *ratio* filled
with the neutral value `50` (stock_data_fetcher.py line 70), which yields
`RSI = 100 - 100/51 = 5000/51 ≈ 98.04`, not `RSI = 50`. -/
theorem rsi_bounds_and_zero_loss (closes : List ℚ) (i : ℕ) :
    0 ≤ indicatorRSI closes i ∧ indicatorRSI closes i ≤ 100 ∧
      (lossMean (cleanCloses closes) i = some 0 →
        indicatorRSI closes i = 5000 / 51) := by
  have hb := rsiRaw_bounds (cleanCloses closes) i
  refine ⟨?_, ?_, ?_⟩
  · rw [indicatorRSI, rsiClipped]
    exact le_min (le_max_of_le_left hb.1) (by norm_num)
  · rw [indicatorRSI, rsiClipped]
    exact min_le_right _ _
  · intro hl
    obtain ⟨g, hg⟩ := gainMean_isSome_of_lossMean hl
    have hnone : rsOpt (cleanCloses closes) i = none := by
      rw [rsOpt, hg, hl]
      simp
    have hfill : rsFilled (cleanCloses closes) i = 50 := by
      rw [rsFilled, hnone]
      rfl
    rw [indicatorRSI, rsiClipped, rsiRaw, hfill]
    norm_num

/-- Concrete close-price series `1, 2, ..., 15`: strictly increasing, so the
14-day rolling loss at row 13 is zero. -/
def closes15 : List ℚ := [1, 2, 3, 4, 5, 6, 7, 8, 9, 10, 11, 12, 13, 14, 15]

/-- No entry of `closes15` is zero, so the zero-close cleaning keeps it. -/
theorem cleanCloses_closes15 : cleanCloses closes15 = closes15 := by
  norm_num [cleanCloses, closes15]

/-- Evaluation of `List.range 15`. -/
theorem range_fifteen :
    List.range 15 = [0, 1, 2, 3, 4, 5, 6, 7, 8, 9, 10, 11, 12, 13, 14] := by decide

/-- Evaluation of `List.range 14`. -/
theorem range_fourteen :
    List.range 14 = [0, 1, 2, 3, 4, 5, 6, 7, 8, 9, 10, 11, 12, 13] := by decide

/-- The delta series of `closes15` is a leading NaN followed by ones. -/
theorem deltas_closes15 : deltas closes15 =
    [none, some 1, some 1, some 1, some 1, some 1, some 1, some 1,
     some 1, some 1, some 1, some 1, some 1, some 1, some 1] := by
  norm_num [deltas, closes15, range_fifteen]

/-- The loss base series of `closes15` is identically zero. -/
theorem losses_closes15 :
    losses closes15 = [0, 0, 0, 0, 0, 0, 0, 0, 0, 0, 0, 0, 0, 0, 0] := by
  norm_num [losses, deltas_closes15]

/-- The gain base series of `closes15`. -/
theorem gains_closes15 :
    gains closes15 = [0, 1, 1, 1, 1, 1, 1, 1, 1, 1, 1, 1, 1, 1, 1] := by
  norm_num [gains, deltas_closes15]

/-- The 14-day rolling loss of `closes15` at row 13 is zero. -/
theorem lossMean_closes15 : lossMean closes15 13 = some 0 := by
  rw [lossMean, rollingMean]
  norm_num [losses_closes15, range_fourteen]

/-- The 14-day rolling gain of `closes15` at row 13. -/
theorem gainMean_closes15 : gainMean closes15 13 = some (13 / 14) := by
  rw [gainMean, rollingMean]
  norm_num [gains_closes15, range_fourteen]

/-- Witness for `rsi_bounds_and_zero_loss`: on `closes15` row 13 has zero
rolling loss and the produced RSI is `5000 / 51`. -/
theorem rsi_bounds_and_zero_loss_witness :
    lossMean (cleanCloses closes15) 13 = some 0 ∧
      indicatorRSI closes15 13 = 5000 / 51 :=
  ⟨by rw [cleanCloses_closes15]; exact lossMean_closes15,
   (rsi_bounds_and_zero_loss closes15 13).2.2
     (by rw [cleanCloses_closes15]; exact lossMean_closes15)⟩

/-- Counterexample to C2 as stated: on the strictly increasing series
`closes15` the window ending at row 13 has rolling loss zero, yet the RSI
produced by the feature engineer is not the neutral value 50 (it is
`5000 / 51 ≈ 98.04`). -/
theorem rsi_zero_loss_counterexample :
    lossMean (cleanCloses closes15) 13 = some 0 ∧
      indicatorRSI closes15 13 ≠ 50 := by
  constructor
  · rw [cleanCloses_closes15]; exact lossMean_closes15
  · rw [indicatorRSI, cleanCloses_closes15, rsiClipped, rsiRaw, rsFilled, rsOpt,
      gainMean_closes15, lossMean_closes15]
    norm_num

/-- The two lists built by the bulk training loop: the successful list is the
metadata of exactly the symbols whose per-symbol training succeeded, the
failed list is exactly the symbols whose training returned `none`, and the
two lengths add up to the number of input symbols. -/
theorem trainLoop_spec (oracle : KerasOracle) (epochs : ℕ)
    (stockData : List (String × List Row)) :
    (trainLoop oracle epochs stockData).1 =
      stockData.filterMap (fun p => trainSingleStock oracle p.1 epochs p.2) ∧
    (trainLoop oracle epochs stockData).2 =
      (stockData.filter fun p =>
        (trainSingleStock oracle p.1 epochs p.2).isNone).map Prod.fst ∧
    (trainLoop oracle epochs stockData).1.length +
      (trainLoop oracle epochs stockData).2.length = stockData.length := by
  induction stockData with
  | nil => exact ⟨rfl, rfl, rfl⟩
  | cons p rest ih =>
    obtain ⟨ih1, ih2, ih3⟩ := ih
    simp only [trainLoop]
    cases hp : trainSingleStock oracle p.1 epochs p.2 with
    | none =>
      refine ⟨?_, ?_, ?_⟩
      · simp [List.filterMap_cons, hp, ih1]
      · simp [List.filter_cons, hp, ih2]
      · simp only [List.length_cons]
        omega
    | some m =>
      refine ⟨?_, ?_, ?_⟩
      · simp [List.filterMap_cons, hp, ih1]
      · simp [List.filter_cons, hp, ih2]
      · simp only [List.length_cons]
        omega

/-- C4 (bulk partial-failure tolerance): `train_all_stocks` is a total
function of the per-symbol results (a single symbol's failure cannot abort
the run); its summary satisfies `successful + failed = total_stocks`, the
failed-symbol list is exactly the symbols whose per-symbol training returned
`none`, and every other symbol contributes its one metadata record, in
order, to the successful list. -/
theorem bulk_partial_failure (oracle : KerasOracle) (epochs : ℕ)
    (stockData : List (String × List Row)) (marketName : String) :
    (trainAllStocks oracle epochs stockData marketName).successfulCount +
      (trainAllStocks oracle epochs stockData marketName).failedCount =
      (trainAllStocks oracle epochs stockData marketName).totalStocks ∧
    (trainAllStocks oracle epochs stockData marketName).failedSymbols =
      (stockData.filter fun p =>
        (trainSingleStock oracle p.1 epochs p.2).isNone).map Prod.fst ∧
    (trainAllStocks oracle epochs stockData marketName).models =
      stockData.filterMap (fun p => trainSingleStock oracle p.1 epochs p.2) ∧
    (trainAllStocks oracle epochs stockData marketName).models.length =
      (trainAllStocks oracle epochs stockData marketName).successfulCount := by
  have h := trainLoop_spec oracle epochs stockData
  exact ⟨h.2.2, h.2.1, h.1, rfl⟩

/-- The sample list returned by a successful `prepare_stock_data` is the one
built by the sequence-building loop on the scaled rows. -/
theorem prepareStockData_fst {L : ℕ} {frame : List Row}
    {x : List (List Row)} {y : List ℚ} {fs : FittedScaler} {ts : FittedScaler1}
    (hp : prepareStockData L frame = some (x, y, fs, ts)) :
    x = (createSequences L (scaledFeatureRows frame) (scaledTargets frame)).1 := by
  rw [prepareStockData] at hp
  split at hp
  · exact absurd hp (by simp)
  · exact (congrArg (fun t => t.1) (Option.some.inj hp)).symm

/-- C10 (metadata sample-count invariant): every metadata record persisted by
`train_single_stock` on an `N`-row indicator-complete frame satisfies
`training_samples + test_samples = N - lookback` with
`training_samples = (N - lookback) * 4 / 5` (the value of
`int(0.8 * (N - lookback))`), the training slice is the chronological front
`X[:split_idx]` and the test slice the tail `X[split_idx:]`, the recorded
lookback is 30, and the recorded feature list is exactly the ordered 9-name
list used to build the sequences. -/
theorem metadata_sample_count (oracle : KerasOracle) (symbol : String) (epochs : ℕ)
    (frame : List Row) (md : Metadata)
    (h : trainSingleStock oracle symbol epochs frame = some md) :
    md.trainingSamples + md.testSamples = frame.length - trainerLookback ∧
    md.trainingSamples = (frame.length - trainerLookback) * 4 / 5 ∧
    md.lookback = trainerLookback ∧
    md.features = featureNames ∧
    (∀ x y fs ts, prepareStockData trainerLookback frame = some (x, y, fs, ts) →
      md.trainingSamples = (x.take (x.length * 4 / 5)).length ∧
      md.testSamples = (x.drop (x.length * 4 / 5)).length) := by
  rw [trainSingleStock] at h
  cases hp : prepareStockData trainerLookback frame with
  | none => rw [hp] at h; exact absurd h (by simp)
  | some q =>
    obtain ⟨x, y, fs, ts⟩ := q
    rw [hp] at h
    have hmd := Option.some.inj h
    have hxlen : x.length = frame.length - trainerLookback := by
      rw [prepareStockData_fst hp, createSequences_fst_length]
      simp [scaledFeatureRows]
    have hsplit : x.length * 4 / 5 ≤ x.length := by
      have h45 : x.length * 4 ≤ x.length * 5 := by omega
      calc x.length * 4 / 5 ≤ x.length * 5 / 5 := Nat.div_le_div_right h45
        _ = x.length := Nat.mul_div_cancel x.length (by omega)
    have htrain : md.trainingSamples = x.length * 4 / 5 := by
      rw [← hmd]
      simpa [List.length_take] using Nat.min_eq_left hsplit
    have htest : md.testSamples = x.length - x.length * 4 / 5 := by
      rw [← hmd]
      simp [List.length_drop]
    refine ⟨?_, ?_, ?_, ?_, ?_⟩
    · rw [htrain, htest, ← hxlen]
      omega
    · rw [htrain, hxlen]
    · rw [← hmd]
    · rw [← hmd]
    · intro x2 y2 fs2 ts2 hp2
      have hx2 := Option.some.inj hp2
      have hxx : x2 = x := (congrArg (fun t => t.1) hx2).symm
      rw [hxx]
      constructor
      · rw [htrain]
        simp [List.length_take, Nat.min_eq_left hsplit]
      · rw [htest]
        simp [List.length_drop]

/-- C6 (recursive forecast frame property): one iteration of the forecast
loop keeps the window length unchanged, shifts every remaining row one
position towards the front (dropping exactly the oldest row), and appends a
synthetic last row that carries the prediction in the close position `0`
while agreeing with the previous last row in all 8 other feature positions. -/
theorem forecast_frame_property (w : List Row) (p : ℚ) (h : w ≠ []) :
    (forecastStep w p).length = w.length ∧
    (∀ k, k + 1 < w.length →
      (forecastStep w p).getD k (fun _ => 0) = w.getD (k + 1) (fun _ => 0)) ∧
    ((forecastStep w p).getLastD (fun _ => 0)) 0 = p ∧
    (∀ j : Fin 9, j ≠ 0 →
      ((forecastStep w p).getLastD (fun _ => 0)) j = (w.getLastD (fun _ => 0)) j) := by
  have hpos : 0 < w.length := List.length_pos.mpr h
  have hlast : (forecastStep w p).getLastD (fun _ => 0) =
      Function.update (w.getLastD fun _ => 0) 0 p := by
    rw [forecastStep]
    simp
  refine ⟨?_, ?_, ?_, ?_⟩
  · rw [forecastStep]
    simp only [List.length_append, List.length_tail, List.length_singleton]
    omega
  · intro k hk
    rw [forecastStep]
    have hkt : k < w.tail.length := by
      simp only [List.length_tail]
      omega
    rw [List.getD_eq_getElem _ _ (by simp only [List.length_append,
      List.length_tail, List.length_singleton]; omega : k < (w.tail ++
        [Function.update (w.getLastD fun _ => 0) 0 p]).length)]
    rw [List.getElem_append_left hkt]
    cases w with
    | nil => exact absurd rfl h
    | cons a t =>
      simp only [List.tail_cons] at hkt ⊢
      rw [List.getD_cons_succ, List.getD_eq_getElem _ _ hkt]
  · rw [hlast]
    simp
  · intro j hj
    rw [hlast]
    exact Function.update_noteq hj _ _

/-- Witness for `forecast_frame_property` on a concrete two-row window. -/
theorem forecast_frame_property_witness :
    (([fun _ => 1, fun _ => 2] : List Row) ≠ []) ∧
    ((forecastStep [fun _ => 1, fun _ => 2] 7).length =
        ([fun _ => 1, fun _ => 2] : List Row).length ∧
      (∀ k, k + 1 < ([fun _ => 1, fun _ => 2] : List Row).length →
        (forecastStep [fun _ => 1, fun _ => 2] 7).getD k (fun _ => 0) =
          ([fun _ => 1, fun _ => 2] : List Row).getD (k + 1) (fun _ => 0)) ∧
      ((forecastStep [fun _ => 1, fun _ => 2] 7).getLastD (fun _ => 0)) 0 = 7 ∧
      (∀ j : Fin 9, j ≠ 0 →
        ((forecastStep [fun _ => 1, fun _ => 2] 7).getLastD (fun _ => 0)) j =
          (([fun _ => 1, fun _ => 2] : List Row).getLastD (fun _ => 0)) j)) :=
  ⟨by simp, forecast_frame_property [fun _ => 1, fun _ => 2] 7 (by simp)⟩

/-- The forecast loop collects exactly one scaled prediction per requested
day. -/
theorem forecastLoop_length (model : List Row → ℚ) (d : ℕ) (w : List Row) :
    (forecastLoop model d w).length = d := by
  induction d generalizing w with
  | zero => rfl
  | succ n ih =>
    rw [forecastLoop]
    simp only [List.length_cons]
    rw [ih]

/-- Behaviour of `run_lstm_prediction_pretrained` on a store hit with a
fetched frame of at least 30 indicator-complete rows. -/
theorem runPretrained_hit (env : Env) (s : String) (d : ℕ) (art : Artifact)
    (f : Frame) (h1 : env.store s = some art) (h2 : env.fetchRecent s = some f)
    (h3 : ¬f.rows.length < 30) :
    runPretrained env s d =
      ({ success := true, error := none, symbol := s,
         predictions := (forecastLoop art.model d
             (lastSequenceScaled art.featureScaler f.rows)).map art.targetScaler.inverse,
         futureDates := futureDatesFrom (f.dates.getLastD 0) d,
         currentPrice := (f.rows.getLastD fun _ => 0) 0,
         predictedPrice := ((forecastLoop art.model d
             (lastSequenceScaled art.featureScaler f.rows)).map
               art.targetScaler.inverse).getLastD 0,
         usingPretrained := some true }, 0) := by
  simp only [runPretrained, h1, h2]
  rw [if_neg h3]

/-- Behaviour of `run_lstm_prediction_pretrained` on a store miss: the call
falls through to `run_lstm_prediction`. -/
theorem runPretrained_miss (env : Env) (s : String) (d : ℕ)
    (h : env.store s = none) :
    runPretrained env s d = runPrediction env s d := by
  simp only [runPretrained, h]

/-- Behaviour of `run_lstm_prediction` when the fetch yields no data. -/
theorem runPrediction_noData (env : Env) (s : String) (d : ℕ)
    (h : env.fetchTrain s = none) :
    runPrediction env s d =
      (failureResult ("No data found for symbol " ++ s) s, 0) := by
  simp only [runPrediction, h]

/-- Behaviour of `run_lstm_prediction` when the single simulation fails in
`prepare_data`. -/
theorem runPrediction_prepareFails (env : Env) (s : String) (d : ℕ) (f : Frame)
    (hf : env.fetchTrain s = some f) (hp : prepareData 30 f.rows = none) :
    runPrediction env s d =
      (failureResult "All simulations failed. Please try different parameters." s, 0) := by
  simp only [runPrediction, hf, hp]

/-- Behaviour of `run_lstm_prediction` when the single simulation trains:
exactly one model fit, and a result dictionary without a `using_pretrained`
key. -/
theorem runPrediction_trains (env : Env) (s : String) (d : ℕ) (f : Frame)
    (pd : Prepared) (hf : env.fetchTrain s = some f)
    (hp : prepareData 30 f.rows = some pd) :
    (runPrediction env s d).2 = 1 ∧
    (runPrediction env s d).1.success = true ∧
    (runPrediction env s d).1.usingPretrained = none := by
  simp only [runPrediction, hf, hp]
  exact ⟨trivial, trivial, trivial⟩

/-- C7 (prediction output contract): on the pretrained path, for every
`future_days = d`, the result carries exactly `d` predicted prices, equal to
the `d` collected scaled predictions of the forecast loop inverse-transformed
through the loaded target scaler (not the feature scaler), and exactly `d`
future dates, each strictly after the last historical date. -/
theorem prediction_output_contract (env : Env) (s : String) (d : ℕ)
    (art : Artifact) (f : Frame) (h1 : env.store s = some art)
    (h2 : env.fetchRecent s = some f) (h3 : 30 ≤ f.rows.length) :
    (runPretrained env s d).1.success = true ∧
    (runPretrained env s d).1.predictions =
      (forecastLoop art.model d (lastSequenceScaled art.featureScaler f.rows)).map
        art.targetScaler.inverse ∧
    (runPretrained env s d).1.predictions.length = d ∧
    (runPretrained env s d).1.futureDates.length = d ∧
    (∀ t ∈ (runPretrained env s d).1.futureDates, f.dates.getLastD 0 < t) := by
  rw [runPretrained_hit env s d art f h1 h2 (by omega)]
  refine ⟨rfl, rfl, ?_, ?_, ?_⟩
  · simp only [List.length_map]
    exact forecastLoop_length art.model d _
  · show (futureDatesFrom (f.dates.getLastD 0) d).length = d
    rw [futureDatesFrom, List.length_map, List.length_range]
  · intro t ht
    simp only [futureDatesFrom, List.mem_map, List.mem_range] at ht
    obtain ⟨i, -, rfl⟩ := ht
    have hi : (0 : ℤ) < (i : ℤ) + 1 := by positivity
    exact lt_add_of_pos_right _ hi

/-- Concrete artifact for the inference-path witnesses. -/
def witnessArtifact : Artifact :=
  { model := fun _ => 0,
    featureScaler := { dmin := fun _ => 0, dmax := fun _ => 1 },
    targetScaler := { dmin := 0, dmax := 1 },
    metadata := { symbol := "HIT", trainingSamples := 0, testSamples := 0,
                  testLoss := 0, testMAE := 0, finalTrainLoss := 0, epochs := 10,
                  lookback := 30, features := featureNames } }

/-- Concrete 30-row frame for the inference-path witnesses. -/
def witnessFrame30 : Frame :=
  { rows := List.replicate 30 fun _ => 1, dates := List.replicate 30 0 }

/-- Environment with a pretrained artifact for every symbol. -/
def witnessEnvHit : Env :=
  { store := fun _ => some witnessArtifact,
    fetchRecent := fun _ => some witnessFrame30,
    fetchTrain := fun _ => none,
    oracle := { fit := fun _ _ => fun _ => 0, evaluate := fun _ _ _ => (0, 0),
                finalTrainLoss := 0 } }

/-- Witness for `prediction_output_contract` at a concrete hit environment. -/
theorem prediction_output_contract_witness :
    (runPretrained witnessEnvHit "HIT" 7).1.success = true ∧
    (runPretrained witnessEnvHit "HIT" 7).1.predictions =
      (forecastLoop witnessArtifact.model 7
        (lastSequenceScaled witnessArtifact.featureScaler witnessFrame30.rows)).map
          witnessArtifact.targetScaler.inverse ∧
    (runPretrained witnessEnvHit "HIT" 7).1.predictions.length = 7 ∧
    (runPretrained witnessEnvHit "HIT" 7).1.futureDates.length = 7 ∧
    (∀ t ∈ (runPretrained witnessEnvHit "HIT" 7).1.futureDates,
      witnessFrame30.dates.getLastD 0 < t) :=
  prediction_output_contract witnessEnvHit "HIT" 7 witnessArtifact witnessFrame30
    rfl rfl (by simp [witnessFrame30])

/-- C3 (amended fallback flag): on a store miss whose training-period fetch
succeeds with at least `lookback + 50 = 80` indicator-complete rows, the
inference path fits a model exactly once and returns a result that carries no
`using_pretrained` field at all — the fallback dictionary built by
`run_lstm_prediction` (lstm_prediction.py lines 432-453) has no such key, so
the flag is absent rather than `false`; on a store hit no model is ever
fitted, and whenever the prediction succeeds the result carries
`using_pretrained = true`. -/
theorem fallback_flag (env : Env) (s : String) (d : ℕ) :
    (∀ f, env.store s = none → env.fetchTrain s = some f →
      30 + 50 ≤ f.rows.length →
      (runPretrained env s d).2 = 1 ∧
      (runPretrained env s d).1.usingPretrained = none) ∧
    (∀ art, env.store s = some art →
      (runPretrained env s d).2 = 0 ∧
      ((runPretrained env s d).1.success = true →
        (runPretrained env s d).1.usingPretrained = some true)) := by
  constructor
  · intro f hmiss hf hlen
    rw [runPretrained_miss env s d hmiss]
    cases hp : prepareData 30 f.rows with
    | none =>
      have hshort := (insufficient_data_threshold 30 f.rows).2.mp hp
      omega
    | some pd =>
      have h := runPrediction_trains env s d f pd hf hp
      exact ⟨h.1, h.2.2⟩
  · intro art hhit
    cases hr : env.fetchRecent s with
    | none =>
      have heq : runPretrained env s d =
          (failureResult ("No data found for " ++ s) s, 0) := by
        simp only [runPretrained, hhit, hr]
      rw [heq]
      exact ⟨rfl, fun hs => absurd hs (by simp [failureResult])⟩
    | some f =>
      by_cases hlen : f.rows.length < 30
      · have heq : runPretrained env s d =
            (failureResult "Insufficient recent data: need 30 rows. Try longer period." s,
              0) := by
          simp only [runPretrained, hhit, hr]
          rw [if_pos hlen]
        rw [heq]
        exact ⟨rfl, fun hs => absurd hs (by simp [failureResult])⟩
      · rw [runPretrained_hit env s d art f hhit hr hlen]
        exact ⟨rfl, fun _ => rfl⟩

/-- Concrete 80-row frame fetched for the fallback training path. -/
def fallbackFrame : Frame :=
  { rows := List.replicate 80 fun _ => 1, dates := List.replicate 80 0 }

/-- Environment with no persisted artifact for any symbol and a usable
training fetch. -/
def fallbackEnv : Env :=
  { store := fun _ => none,
    fetchRecent := fun _ => none,
    fetchTrain := fun _ => some fallbackFrame,
    oracle := { fit := fun _ _ => fun _ => 0, evaluate := fun _ _ _ => (0, 0),
                finalTrainLoss := 0 } }

/-- Counterexample to C3 as stated: for a symbol with no persisted artifact
the fallback trains exactly once, but the returned dictionary does not carry
`using_pretrained = false` — it has no `using_pretrained` entry at all. -/
theorem fallback_flag_counterexample :
    fallbackEnv.store "TEST" = none ∧
    (runPretrained fallbackEnv "TEST" 5).2 = 1 ∧
    (runPretrained fallbackEnv "TEST" 5).1.usingPretrained ≠ some false := by
  have hmiss : runPretrained fallbackEnv "TEST" 5 = runPrediction fallbackEnv "TEST" 5 :=
    runPretrained_miss _ _ _ rfl
  have hlen : fallbackFrame.rows.length = 80 := by simp [fallbackFrame]
  cases hp : prepareData 30 fallbackFrame.rows with
  | none =>
    have hshort := (insufficient_data_threshold 30 fallbackFrame.rows).2.mp hp
    omega
  | some pd =>
    have h := runPrediction_trains fallbackEnv "TEST" 5 fallbackFrame pd rfl hp
    rw [hmiss]
    refine ⟨rfl, h.1, ?_⟩
    rw [h.2.2]
    simp

/-- Witness for `fallback_flag` on the concrete miss environment. -/
theorem fallback_flag_witness :
    (runPretrained fallbackEnv "WIT" 5).2 = 1 ∧
    (runPretrained fallbackEnv "WIT" 5).1.usingPretrained = none :=
  (fallback_flag fallbackEnv "WIT" 5).1 fallbackFrame rfl rfl
    (by norm_num [fallbackFrame])

/-- C9 (soft failure on bad upstream data): whenever the market-data fetch of
the active branch returns nothing (modelling a `None`/empty dataframe), or
the pretrained branch sees fewer than 30 indicator-complete rows, the
prediction entry point returns a structured dictionary with `success = false`
and an error message; the embedding is a total function, matching the code in
which every exception is caught and converted to such a dictionary. -/
theorem soft_failure (env : Env) (s : String) (d : ℕ)
    (h : (∃ art, env.store s = some art ∧
           (env.fetchRecent s = none ∨
             ∃ f, env.fetchRecent s = some f ∧ f.rows.length < 30)) ∨
         (env.store s = none ∧ env.fetchTrain s = none)) :
    (runPretrained env s d).1.success = false ∧
    ((runPretrained env s d).1.error).isSome = true := by
  rcases h with ⟨art, hhit, hbad⟩ | ⟨hmiss, hft⟩
  · rcases hbad with hr | ⟨f, hr, hlen⟩
    · have heq : runPretrained env s d =
          (failureResult ("No data found for " ++ s) s, 0) := by
        simp only [runPretrained, hhit, hr]
      rw [heq]
      exact ⟨rfl, rfl⟩
    · have heq : runPretrained env s d =
          (failureResult "Insufficient recent data: need 30 rows. Try longer period." s,
            0) := by
        simp only [runPretrained, hhit, hr]
        rw [if_pos hlen]
      rw [heq]
      exact ⟨rfl, rfl⟩
  · rw [runPretrained_miss env s d hmiss, runPrediction_noData env s d hft]
    exact ⟨rfl, rfl⟩

/-- Environment in which every fetch fails and no artifact is stored. -/
def softFailEnv : Env :=
  { store := fun _ => none,
    fetchRecent := fun _ => none,
    fetchTrain := fun _ => none,
    oracle := { fit := fun _ _ => fun _ => 0, evaluate := fun _ _ _ => (0, 0),
                finalTrainLoss := 0 } }

/-- Witness for `soft_failure` on the concrete all-failing environment. -/
theorem soft_failure_witness :
    (runPretrained softFailEnv "NX" 3).1.success = false ∧
    ((runPretrained softFailEnv "NX" 3).1.error).isSome = true :=
  soft_failure softFailEnv "NX" 3 (Or.inr ⟨rfl, rfl⟩)

/-- C8 (model store key and miss behaviour): save and load derive the
identical sanitized key for every symbol (both replace every dot by an
underscore and every ampersand by the letters AND, deterministically, being
functions); `load_pretrained_model` returns `none`, without raising, exactly
when at least one of the three artifact files for that key is absent, and
returns the full (model, feature scaler, target scaler, metadata) bundle
when all three exist. -/
theorem model_store_key_and_miss (files : ArtifactFiles) (symbol : String) :
    safeSymbolSave symbol = safeSymbolLoad symbol ∧
    (loadPretrainedModel files symbol = none ↔
      files.modelFile (modelPath (safeSymbolLoad symbol)) = none ∨
      files.scalerFile (scalerPath (safeSymbolLoad symbol)) = none ∨
      files.metadataFile (metadataPath (safeSymbolLoad symbol)) = none) ∧
    (∀ m sc md,
      files.modelFile (modelPath (safeSymbolLoad symbol)) = some m →
      files.scalerFile (scalerPath (safeSymbolLoad symbol)) = some sc →
      files.metadataFile (metadataPath (safeSymbolLoad symbol)) = some md →
      loadPretrainedModel files symbol = some (m, sc.1, sc.2, md)) := by
  refine ⟨rfl, ?_, ?_⟩
  · simp only [loadPretrainedModel]
    cases h1 : files.modelFile (modelPath (safeSymbolLoad symbol)) <;>
      cases h2 : files.scalerFile (scalerPath (safeSymbolLoad symbol)) <;>
        cases h3 : files.metadataFile (metadataPath (safeSymbolLoad symbol)) <;>
          simp [h1, h2, h3]
  · intro m sc md h1 h2 h3
    simp only [loadPretrainedModel, h1, h2, h3]

/-- Concrete stored network content for the model-store witness. -/
def storedModel : List Row → ℚ := fun _ => 0

/-- Concrete stored scaler pair for the model-store witness. -/
def storedScalers : FittedScaler × FittedScaler1 :=
  ({ dmin := fun _ => 0, dmax := fun _ => 1 }, { dmin := 0, dmax := 1 })

/-- Concrete stored metadata record for the model-store witness. -/
def storedMeta : Metadata :=
  { symbol := "M&M.NS", trainingSamples := 40, testSamples := 10, testLoss := 0,
    testMAE := 0, finalTrainLoss := 0, epochs := 10, lookback := 30,
    features := featureNames }

/-- Filesystem holding exactly the three artifact files for the sanitized key
of the symbol `M&M.NS`. -/
def storeFiles : ArtifactFiles :=
  { modelFile := fun p => if p = modelPath "MANDM_NS" then some storedModel else none,
    scalerFile := fun p => if p = scalerPath "MANDM_NS" then some storedScalers else none,
    metadataFile := fun p => if p = metadataPath "MANDM_NS" then some storedMeta else none }

/-- Witness for `model_store_key_and_miss` at the symbol `M&M.NS`, whose
sanitized key exercises both substitutions. -/
theorem model_store_key_and_miss_witness :
    safeSymbolSave "M&M.NS" = safeSymbolLoad "M&M.NS" ∧
    loadPretrainedModel storeFiles "M&M.NS" =
      some (storedModel, storedScalers.1, storedScalers.2, storedMeta) :=
  ⟨(model_store_key_and_miss storeFiles "M&M.NS").1,
   (model_store_key_and_miss storeFiles "M&M.NS").2.2 storedModel storedScalers storedMeta
     rfl rfl rfl⟩

/-- Oracle returning a trivially fitted network and zero metrics, for the
metadata witness. -/
def zeroOracle : KerasOracle :=
  { fit := fun _ _ => fun _ => 0, evaluate := fun _ _ _ => (0, 0), finalTrainLoss := 0 }

/-- Concrete 80-row indicator-complete frame for the metadata witness. -/
def metaFrame : List Row := List.replicate 80 fun _ => 1

/-- The metadata record produced on `metaFrame`: 50 samples split into 40
training and 10 test samples. -/
def metaRecord : Metadata :=
  { symbol := "WTN", trainingSamples := 40, testSamples := 10, testLoss := 0,
    testMAE := 0, finalTrainLoss := 0, epochs := 10, lookback := 30,
    features := featureNames }

/-- Witness for `metadata_sample_count` on the concrete 80-row frame. -/
theorem metadata_sample_count_witness :
    trainSingleStock zeroOracle "WTN" 10 metaFrame = some metaRecord ∧
    metaRecord.trainingSamples + metaRecord.testSamples =
      metaFrame.length - trainerLookback ∧
    metaRecord.trainingSamples = (metaFrame.length - trainerLookback) * 4 / 5 ∧
    metaRecord.lookback = trainerLookback ∧
    metaRecord.features = featureNames :=
  have h : trainSingleStock zeroOracle "WTN" 10 metaFrame = some metaRecord := by decide
  ⟨h, (metadata_sample_count zeroOracle "WTN" 10 metaFrame metaRecord h).1,
    (metadata_sample_count zeroOracle "WTN" 10 metaFrame metaRecord h).2.1,
    (metadata_sample_count zeroOracle "WTN" 10 metaFrame metaRecord h).2.2.1,
    (metadata_sample_count zeroOracle "WTN" 10 metaFrame metaRecord h).2.2.2.1⟩

end StockLSTM
